import Mathlib

/-!
Shallow embedding of the socket channel handler
(src/source/socket_channel_handler.c) and of the URI string parser
(src/source/uri.c) of the aws-c-io repository, together with theorems
settling the specification claims about them.

Modelling conventions:
- machine sizes (size_t) are Nat; C int error codes are Nat, with 0 meaning
  success;
- the external collaborators (socket primitive, event loop, channel/slot
  framework) are represented by explicit environment values: the socket is a
  finite list of per-iteration outcomes (once the list is exhausted, a
  non-blocking read reports the would-block condition, as a drained
  non-blocking socket does), and the effects the handler pushes into the
  framework (messages forwarded, channel shutdown requests, scheduled tasks,
  completion callbacks) are recorded in explicit result structures;
- aws_channel_current_clock_time and aws_channel_schedule_task are modelled
  as always succeeding; their failure paths in the C code abort scheduling
  and are outside every claim considered here;
- memory allocation is modelled as always succeeding.
-/

/-! ## Error-code constants

The numeric values live in aws-c-io headers outside the sources considered
here; only their distinctness matters, so they are given symbolic distinct
values. -/

def AWS_IO_READ_WOULD_BLOCK : Nat := 1036

def AWS_IO_SOCKET_CLOSED : Nat := 1037

def AWS_IO_CHANNEL_ERROR_ERROR_CANT_ACCEPT_INPUT : Nat := 1038

/-! ## Data model of the handler -/

/-- An aws_io_message as far as the handler observes it: an identity (to
track ordering and pool release) and whether an on_completion callback is
attached. -/
structure IoMessage where
  msgId : Nat
  hasOnCompletion : Bool
deriving DecidableEq

/-- The struct socket_handler state. The socket, event_loop and slot
fields of the C struct are external references and are modelled by the
environment values passed to each operation. -/
structure SocketHandler where
  maxRwSize : Nat
  shutdownErrCode : Nat
  shutdownInProgress : Bool
  writeQueue : List IoMessage
deriving DecidableEq

/-- Outcome of one aws_socket_read call: either the socket has avail bytes
ready (the read stores min(avail, buffer capacity) bytes and succeeds), or
the read fails raising the given error code (AWS_IO_READ_WOULD_BLOCK for
the would-block condition). -/
inductive SockRead where
  | ready (avail : Nat)
  | fail (err : Nat)
deriving DecidableEq

/-- Environment of one iteration of the read loop: the socket read outcome
and whether aws_channel_slot_send_message accepts the forwarded message. -/
structure ReadIterEnv where
  sock : SockRead
  sendOk : Bool
deriving DecidableEq

/-- How the read drain loop of s_do_read terminated. -/
inductive DrainExit where
  /-- max_to_read was zero: the loop body was never entered. -/
  | windowZero
  /-- the while condition failed: total_read reached max_to_read. -/
  | normal
  /-- aws_socket_read failed with the given code; the buffer was released
  and the loop broke. -/
  | readErr (e : Nat)
  /-- aws_channel_slot_send_message failed; the buffer was released and
  s_do_read returned from inside the loop. -/
  | sendFail
deriving DecidableEq

/-- Accumulated observable effects of the read drain loop. -/
structure DrainAcc where
  /-- capacity passed to aws_channel_acquire_message_from_pool, per
  acquisition, in order. -/
  acquired : List Nat
  /-- bytes of each message successfully forwarded upstream, in order. -/
  forwarded : List Nat
  /-- final value of total_read. -/
  total : Nat
  exit : DrainExit
deriving DecidableEq

/-- The while loop of s_do_read. m is max_to_read: every pooled buffer is
acquired with capacity m, exactly as the C code does. When the outcome list
is exhausted the socket reports would-block. -/
def s_do_read_loop (m : Nat) : List ReadIterEnv → Nat → DrainAcc
  | [], total =>
    if total < m then
      { acquired := [m], forwarded := [], total := total,
        exit := DrainExit.readErr AWS_IO_READ_WOULD_BLOCK }
    else
      { acquired := [], forwarded := [], total := total, exit := DrainExit.normal }
  | e :: rest, total =>
    if total < m then
      match e.sock with
      | SockRead.fail err =>
        { acquired := [m], forwarded := [], total := total,
          exit := DrainExit.readErr err }
      | SockRead.ready avail =>
        let rd := min avail m
        if e.sendOk then
          let acc := s_do_read_loop m rest (total + rd)
          { acquired := m :: acc.acquired, forwarded := rd :: acc.forwarded,
            total := acc.total, exit := acc.exit }
        else
          { acquired := [m], forwarded := [], total := total + rd,
            exit := DrainExit.sendFail }
    else
      { acquired := [], forwarded := [], total := total, exit := DrainExit.normal }

/-- Observable effects of one s_do_read drain pass. -/
structure DoReadResult where
  acquiredSizes : List Nat
  forwarded : List Nat
  totalRead : Nat
  exitKind : DrainExit
  /-- aws_channel_shutdown invoked with this code, when some. -/
  channelShutdown : Option Nat
  /-- a follow-up s_read_task was scheduled on the event loop. -/
  scheduledReadTask : Bool
deriving DecidableEq

/-- The max_to_read computation at the top of s_do_read:
min(downstream window, max_rw_size), written with the comparison the C
code uses. -/
def max_to_read (h : SocketHandler) (downstreamWindow : Nat) : Nat :=
  if downstreamWindow > h.maxRwSize then h.maxRwSize else downstreamWindow

/-- s_do_read: one drain pass. downstreamWindow is the value returned by
aws_channel_slot_downstream_read_window at entry. -/
def s_do_read (h : SocketHandler) (downstreamWindow : Nat)
    (env : List ReadIterEnv) : DoReadResult :=
  let maxToRead := max_to_read h downstreamWindow
  if maxToRead = 0 then
    { acquiredSizes := [], forwarded := [], totalRead := 0,
      exitKind := DrainExit.windowZero, channelShutdown := none,
      scheduledReadTask := false }
  else
    let acc := s_do_read_loop maxToRead env 0
    let base : DoReadResult :=
      { acquiredSizes := acc.acquired, forwarded := acc.forwarded,
        totalRead := acc.total, exitKind := acc.exit,
        channelShutdown := none, scheduledReadTask := false }
    if acc.exit = DrainExit.sendFail then
      base
    else if acc.total < maxToRead then
      match acc.exit with
      | DrainExit.readErr e =>
        if e ≠ AWS_IO_READ_WOULD_BLOCK ∧ h.shutdownInProgress = false then
          { base with channelShutdown := some e }
        else base
      | _ => base
    else
      { base with
        scheduledReadTask := !h.shutdownInProgress && (acc.total == h.maxRwSize) }

/-- Result of s_on_readable_notification: whether a drain pass ran and
whether aws_channel_shutdown was invoked. -/
structure ReadNotifyResult where
  didRead : Option DoReadResult
  channelShutdown : Option Nat
deriving DecidableEq

/-- s_on_readable_notification: an error-free notification drains; an error
notification shuts the channel down unless shutdown is in progress. -/
def s_on_readable_notification (h : SocketHandler) (errorCode : Nat)
    (downstreamWindow : Nat) (env : List ReadIterEnv) : ReadNotifyResult :=
  if errorCode = 0 then
    { didRead := some (s_do_read h downstreamWindow env), channelShutdown := none }
  else if h.shutdownInProgress = false then
    { didRead := none, channelShutdown := some errorCode }
  else
    { didRead := none, channelShutdown := none }

/-- Delivery status of a scheduled one-shot task. -/
inductive TaskStatus where
  | runReady
  | canceled
deriving DecidableEq

/-- s_read_task: the deferred follow-up read. It drains only when the task
status is AWS_TASK_STATUS_RUN_READY; none means the task was a no-op. -/
def s_read_task (status : TaskStatus) (h : SocketHandler)
    (downstreamWindow : Nat) (env : List ReadIterEnv) : Option DoReadResult :=
  if status = TaskStatus.runReady then
    some (s_do_read h downstreamWindow env)
  else
    none

/-- Result of socket_increment_read_window: whether a read task was
scheduled, and the returned status. The clock is modelled as available, so
the AWS_OP_ERR path on clock failure is not reachable in the model. -/
structure IncrementWindowResult where
  taskScheduled : Bool
  ok : Bool
deriving DecidableEq

/-- socket_increment_read_window: schedules a deferred read task unless
shutdown is in progress; the size argument is ignored by the C code. -/
def socket_increment_read_window (h : SocketHandler) : IncrementWindowResult :=
  if h.shutdownInProgress = false then
    { taskScheduled := true, ok := true }
  else
    { taskScheduled := false, ok := true }

/-- Direction argument of the shutdown entry point. -/
inductive ChannelDir where
  | read
  | write
deriving DecidableEq

/-- A call to aws_channel_slot_on_handler_shutdown_complete: direction,
error code, abort flag. -/
structure ShutdownNotifyEvt where
  dir : ChannelDir
  errCode : Nat
  abortFlag : Bool
deriving DecidableEq

/-- s_shutdown_task: the deferred write-direction shutdown notification.
The C task casts its status to void and always notifies, so the result does
not depend on the status argument. -/
def s_shutdown_task (status : TaskStatus) (h : SocketHandler) :
    Option ShutdownNotifyEvt :=
  some { dir := ChannelDir.write, errCode := h.shutdownErrCode, abortFlag := false }

/-- Observable effects of the write-completion callback. -/
structure WriteCompleteResult where
  /-- error code passed to the on_completion callback, when it was invoked. -/
  completionInvoked : Option Nat
  releasedToPool : Bool
  channelShutdown : Option Nat
deriving DecidableEq

/-- s_on_socket_write_complete. The first argument records the
shutdown_in_progress flag of the handler at delivery time; the C callback
receives only the message as user_data and never consults that flag, so the
result does not depend on it. -/
def s_on_socket_write_complete (shutdownInProgress : Bool)
    (userData : Option IoMessage) (errorCode : Nat) : WriteCompleteResult :=
  match userData with
  | none => { completionInvoked := none, releasedToPool := false, channelShutdown := none }
  | some m =>
    { completionInvoked := if m.hasOnCompletion then some errorCode else none,
      releasedToPool := true,
      channelShutdown := if errorCode ≠ 0 then some errorCode else none }

/-- External socket facts consumed by s_socket_shutdown:
whether aws_socket_is_open holds and whether aws_socket_shutdown succeeds. -/
structure ShutdownEnv where
  socketOpen : Bool
  socketShutdownOk : Bool
deriving DecidableEq

/-- One drained pending write: the message identity and the error code its
completion callback was invoked with (none when no callback is attached;
the message is released to its pool either way). -/
structure DrainEvt where
  evtMsgId : Nat
  completionErr : Option Nat
deriving DecidableEq

/-- The while loop of s_socket_shutdown that pops the pending write queue
front first, failing each message with AWS_IO_SOCKET_CLOSED. -/
def s_socket_shutdown_drain : List IoMessage → List DrainEvt
  | [] => []
  | m :: rest =>
    { evtMsgId := m.msgId,
      completionErr := if m.hasOnCompletion then some AWS_IO_SOCKET_CLOSED else none } ::
    s_socket_shutdown_drain rest

/-- Observable effects of s_socket_shutdown. -/
structure SocketShutdownResult where
  handler : SocketHandler
  drained : List DrainEvt
  /-- aws_socket_shutdown was invoked on the socket. -/
  socketShutdownCalled : Bool
  /-- shutdown-complete reported inline, before returning. -/
  inlineNotify : Option ShutdownNotifyEvt
  /-- the deferred s_shutdown_task was scheduled on the event loop. -/
  deferredNotifyScheduled : Bool
  ok : Bool
deriving DecidableEq

/-- s_socket_shutdown. The clock is modelled as available, so the
AWS_OP_ERR path on clock failure in the write direction is not reachable
in the model. -/
def s_socket_shutdown (h : SocketHandler) (env : ShutdownEnv)
    (dir : ChannelDir) (errorCode : Nat) (abortFlag : Bool) : SocketShutdownResult :=
  let h1 := { h with shutdownInProgress := true }
  match dir with
  | ChannelDir.read =>
    if abortFlag && env.socketOpen then
      if env.socketShutdownOk then
        { handler := h1, drained := [], socketShutdownCalled := true,
          inlineNotify := some { dir := ChannelDir.read, errCode := errorCode, abortFlag := abortFlag },
          deferredNotifyScheduled := false, ok := true }
      else
        { handler := h1, drained := [], socketShutdownCalled := true,
          inlineNotify := none, deferredNotifyScheduled := false, ok := false }
    else
      { handler := h1, drained := [], socketShutdownCalled := false,
        inlineNotify := some { dir := ChannelDir.read, errCode := errorCode, abortFlag := abortFlag },
        deferredNotifyScheduled := false, ok := true }
  | ChannelDir.write =>
    let evts := s_socket_shutdown_drain h1.writeQueue
    let h2 := { h1 with writeQueue := [] }
    let h3 := { h2 with shutdownErrCode := errorCode }
    { handler := h3, drained := evts, socketShutdownCalled := env.socketOpen,
      inlineNotify := none, deferredNotifyScheduled := true, ok := true }

/-- s_socket_process_read_message: always raises
AWS_IO_CHANNEL_ERROR_ERROR_CANT_ACCEPT_INPUT and leaves the handler
untouched (the debug assert aborts only in debug builds). -/
def s_socket_process_read_message (h : SocketHandler) (msg : IoMessage) :
    Option Nat × SocketHandler :=
  (some AWS_IO_CHANNEL_ERROR_ERROR_CANT_ACCEPT_INPUT, h)

/-! ## Data model of the URI parser (src/source/uri.c)

Byte cursors inside struct aws_uri are modelled as Option (List Char):
none is the zeroed cursor (NULL pointer, length 0), some l a non-NULL
cursor denoting the byte run l. The working cursor of the parse is the
remaining suffix of the input. The one out-of-bounds byte read in
s_parse_scheme (the byte after a colon that is the last byte of the
cursor) is modelled as a NUL byte. -/

/-- The struct aws_uri fields observable through the public accessors,
plus the bookkeeping fields set by aws_uri_init_parse; AWS_ZERO_STRUCT
corresponds to AwsUri.zeroed. -/
structure AwsUri where
  selfSizeSet : Bool
  allocatorSet : Bool
  /-- the internal heap copy of the uri string; none when released/zeroed. -/
  uriStr : Option (List Char)
  scheme : Option (List Char)
  authority : Option (List Char)
  pathAndQuery : Option (List Char)
  hostName : Option (List Char)
  queryString : Option (List Char)
  path : Option (List Char)
  port : Nat
deriving DecidableEq

/-- The fully zeroed aws_uri value. -/
def AwsUri.zeroed : AwsUri :=
  { selfSizeSet := false, allocatorSet := false, uriStr := none,
    scheme := none, authority := none, pathAndQuery := none,
    hostName := none, queryString := none, path := none, port := 0 }

/-- enum parser_state. finished and parseError are the two states at which
the driver loop stops (both compare greater-or-equal to FINISHED in C). -/
inductive ParserState where
  | onScheme
  | onAuthority
  | onPath
  | onQueryString
  | finished
  | parseError
deriving DecidableEq

/-- Whether the driver while loop (state < FINISHED) stops at this state. -/
def ParserState.isTerminal : ParserState → Bool
  | ParserState.finished => true
  | ParserState.parseError => true
  | _ => false

/-- struct uri_parser together with the working byte cursor over the
copied uri string (remaining suffix). -/
structure ParserSt where
  uri : AwsUri
  state : ParserState
  str : List Char
deriving DecidableEq

/-- atoi on a run of decimal digit characters. -/
def atoiDigits (s : List Char) : Nat :=
  s.foldl (fun acc c => acc * 10 + (c.toNat - 48)) 0

/-- s_parse_scheme. -/
def s_parse_scheme (p : ParserSt) : ParserSt :=
  match p.str.findIdx? (fun c => c == ':') with
  | none => { p with state := ParserState.onAuthority }
  | some i =>
    if i < p.str.length ∧ p.str.getD (i + 1) (Char.ofNat 0) ≠ '/' then
      { p with state := ParserState.onAuthority }
    else
      let schemeCur := p.str.take i
      let rest := p.str.drop i
      if rest.length < 3 ∨ rest.getD 0 (Char.ofNat 0) ≠ ':' ∨
          rest.getD 1 (Char.ofNat 0) ≠ '/' ∨ rest.getD 2 (Char.ofNat 0) ≠ '/' then
        { p with
          uri := { p.uri with scheme := some schemeCur }
          str := rest
          state := ParserState.parseError }
      else
        { p with
          uri := { p.uri with scheme := some schemeCur }
          str := rest.drop 3
          state := ParserState.onAuthority }

/-- The port-parsing tail section of s_parse_authority, which runs after
the authority cursor has been carved out (it is skipped only by the
empty-input error branch, which returns early). -/
def s_parse_authority_port (p : ParserSt) : ParserSt :=
  match p.uri.authority with
  | none => p
  | some auth =>
    if auth.length ≠ 0 then
      match auth.findIdx? (fun c => c == ':') with
      | none =>
        { p with uri := { p.uri with port := 0, hostName := some auth } }
      | some c =>
        let host := auth.take c
        let portLen := auth.length - host.length - 1
        let portStr := auth.drop (c + 1)
        let p2 := { p with uri := { p.uri with hostName := some host } }
        if portStr.any (fun ch => !ch.isDigit) then
          { p2 with state := ParserState.parseError }
        else if portLen > 5 then
          { p2 with state := ParserState.parseError }
        else if atoiDigits portStr > 65535 then
          { p2 with state := ParserState.parseError }
        else
          { p2 with uri := { p2.uri with port := atoiDigits portStr } }
    else p

/-- s_parse_authority. The C branch order checks the no-slash-no-qmark
branch (which requires a nonempty cursor) before the empty-cursor error
branch; testing emptiness first is equivalent. -/
def s_parse_authority (p : ParserSt) : ParserSt :=
  if p.str = [] then
    { p with state := ParserState.parseError }
  else
    let slashIdx := p.str.findIdx? (fun c => c == '/')
    let qmarkIdx := p.str.findIdx? (fun c => c == '?')
    let p1 :=
      if slashIdx = none ∧ qmarkIdx = none then
        { p with
          uri := { p.uri with
                   authority := some p.str
                   path := some ['/']
                   pathAndQuery := some ['/'] }
          state := ParserState.finished
          str := [] }
      else
        let e := match slashIdx with
          | some s => s
          | none => match qmarkIdx with
            | some q => q
            | none => p.str.length
        let st := match slashIdx with
          | some _ => ParserState.onPath
          | none => match qmarkIdx with
            | some _ => ParserState.onQueryString
            | none => p.state
        { p with
          uri := { p.uri with authority := some (p.str.take e) }
          str := p.str.drop e
          state := st }
    s_parse_authority_port p1

/-- s_parse_path. The empty-cursor error branch of the C code is dead
(an empty cursor has no question mark and takes the first branch); it is
kept in place. -/
def s_parse_path (p : ParserSt) : ParserSt :=
  let p0 := { p with uri := { p.uri with pathAndQuery := some p.str } }
  match p0.str.findIdx? (fun c => c == '?') with
  | none =>
    { p0 with
      uri := { p0.uri with path := some p0.str }
      state := ParserState.finished
      str := [] }
  | some q =>
    if p0.str = [] then
      { p0 with state := ParserState.parseError }
    else
      { p0 with
        uri := { p0.uri with path := some (p0.str.take q) }
        str := p0.str.drop q
        state := ParserState.onQueryString }

/-- s_parse_query_string. The cursor still carries the leading question
mark, which is dropped from the stored query string. -/
def s_parse_query_string (p : ParserSt) : ParserSt :=
  let u1 := if p.uri.pathAndQuery = none then
      { p.uri with pathAndQuery := some p.str }
    else p.uri
  let u2 := if p.str ≠ [] then
      { u1 with queryString := some (p.str.drop 1) }
    else u1
  let qlen := match u2.queryString with
    | some l => l.length
    | none => 0
  { p with uri := u2, str := p.str.drop (qlen + 1), state := ParserState.finished }

/-- One dispatch through the s_states function table. -/
def uriStep (p : ParserSt) : ParserSt :=
  match p.state with
  | ParserState.onScheme => s_parse_scheme p
  | ParserState.onAuthority => s_parse_authority p
  | ParserState.onPath => s_parse_path p
  | ParserState.onQueryString => s_parse_query_string p
  | _ => p

/-- The driver while loop of s_init_from_uri_str, with fuel; each state
function strictly advances the state, so fuel 8 always suffices to reach a
terminal state. -/
def runStates : Nat → ParserSt → ParserSt
  | 0, p => p
  | n + 1, p => if p.state.isTerminal then p else runStates n (uriStep p)

/-- aws_byte_cursor_from_buf over the internal string copy: a zeroed
buffer yields the empty cursor. -/
def uri_str_cursor (uri : AwsUri) : List Char :=
  match uri.uriStr with
  | some l => l
  | none => []

/-- s_init_from_uri_str: run the state machine over the copied uri string;
on anything but FINISHED, clean up the string copy and zero the whole
struct. -/
def s_init_from_uri_str (uri : AwsUri) : Bool × AwsUri :=
  let p := runStates 8 { uri := uri, state := ParserState.onScheme, str := uri_str_cursor uri }
  if p.state = ParserState.finished then (true, p.uri)
  else (false, AwsUri.zeroed)

/-- aws_uri_init_parse: zero the struct, record self_size and allocator,
copy the input string, parse. The Bool is true on AWS_OP_SUCCESS. -/
def aws_uri_init_parse (input : List Char) : Bool × AwsUri :=
  let u0 : AwsUri :=
    { AwsUri.zeroed with
      selfSizeSet := true
      allocatorSet := true
      uriStr := some input }
  s_init_from_uri_str u0

/-! ## Helper lemmas -/

/-- Exhaustive relation between the exit kind of the drain loop and its
final total: a normal exit means the quota was reached, a read-error exit
means it was not, and otherwise the loop ended by a forwarding failure. -/
theorem s_do_read_loop_exit (m : Nat) (env : List ReadIterEnv) (t : Nat) :
    ((s_do_read_loop m env t).exit = DrainExit.normal ∧ m ≤ (s_do_read_loop m env t).total) ∨
    ((∃ e, (s_do_read_loop m env t).exit = DrainExit.readErr e) ∧
      (s_do_read_loop m env t).total < m) ∨
    (s_do_read_loop m env t).exit = DrainExit.sendFail := by
  induction env generalizing t with
  | nil =>
    by_cases h : t < m
    · exact Or.inr (Or.inl ⟨⟨AWS_IO_READ_WOULD_BLOCK, by simp [s_do_read_loop, h]⟩,
        by simp [s_do_read_loop, h]⟩)
    · refine Or.inl ⟨by simp [s_do_read_loop, h], ?_⟩
      simp [s_do_read_loop, h]
      omega
  | cons e rest ih =>
    by_cases h : t < m
    · cases hs : e.sock with
      | fail err =>
        exact Or.inr (Or.inl ⟨⟨err, by simp [s_do_read_loop, h, hs]⟩,
          by simp [s_do_read_loop, h, hs]⟩)
      | ready avail =>
        by_cases hsend : e.sendOk = true
        · simpa [s_do_read_loop, h, hs, hsend] using ih (t + min avail m)
        · exact Or.inr (Or.inr (by simp [s_do_read_loop, h, hs, hsend]))
    · refine Or.inl ⟨by simp [s_do_read_loop, h], ?_⟩
      simp [s_do_read_loop, h]
      omega

/-- The drain loop never reports the windowZero exit. -/
theorem s_do_read_loop_ne_windowZero (m : Nat) (env : List ReadIterEnv) (t : Nat) :
    (s_do_read_loop m env t).exit ≠ DrainExit.windowZero := by
  rcases s_do_read_loop_exit m env t with ⟨h, -⟩ | ⟨⟨e, h⟩, -⟩ | h <;> simp [h]

/-- The pending-write drain loop as a map over the queue: every message is
failed with AWS_IO_SOCKET_CLOSED, in queue order. -/
theorem s_socket_shutdown_drain_eq_map (q : List IoMessage) :
    s_socket_shutdown_drain q =
      q.map (fun m =>
        { evtMsgId := m.msgId,
          completionErr := if m.hasOnCompletion then some AWS_IO_SOCKET_CLOSED else none }) := by
  induction q with
  | nil => rfl
  | cons m rest ih => simp [s_socket_shutdown_drain, ih]

/-- max_to_read is min(downstream window, max_rw_size). -/
theorem max_to_read_eq_min (h : SocketHandler) (w : Nat) :
    max_to_read h w = min w h.maxRwSize := by
  unfold max_to_read
  split <;> omega

/-- When a drain pass runs with shutdown already in progress, it neither
schedules a follow-up read task nor requests a channel shutdown. -/
theorem s_do_read_sip (h : SocketHandler) (hs : h.shutdownInProgress = true)
    (w : Nat) (env : List ReadIterEnv) :
    (s_do_read h w env).scheduledReadTask = false ∧
    (s_do_read h w env).channelShutdown = none := by
  by_cases h0 : max_to_read h w = 0
  · simp [s_do_read, h0]
  · rcases s_do_read_loop_exit (max_to_read h w) env 0 with ⟨hn, hle⟩ | ⟨⟨e, he⟩, hlt⟩ | hsf
    · simp [s_do_read, h0, hn, Nat.not_lt.mpr hle, hs]
    · have hnsf : (s_do_read_loop (max_to_read h w) env 0).exit ≠ DrainExit.sendFail := by
        simp [he]
      simp [s_do_read, h0, he, hlt, hnsf, hs]
    · simp [s_do_read, h0, hsf]

/-! ## Claim theorems -/

/-- Claim C1 (code-bug evaluation): with max_chunk_size 100 and a downstream
read window of 10, a drain pass in which the socket first yields 6 bytes and
then has at least 10 more ready acquires both pooled buffers with capacity
10 — the full quota, not the remaining quota of 4 for the second — and reads
and forwards 16 bytes in total, exceeding min(downstream window,
max_chunk_size) = 10. The window bound and remaining-quota sizing stated by
the claim do not hold on the code. -/
theorem claim1_read_pass_exceeds_window :
    (s_do_read
        { maxRwSize := 100, shutdownErrCode := 0, shutdownInProgress := false, writeQueue := [] }
        10
        [{ sock := SockRead.ready 6, sendOk := true },
         { sock := SockRead.ready 100, sendOk := true }]) =
      { acquiredSizes := [10, 10], forwarded := [6, 10], totalRead := 16,
        exitKind := DrainExit.normal, channelShutdown := none,
        scheduledReadTask := false } ∧
    min 10 100 < 16 := by decide

/-- Claim C2 counterexample: with max_chunk_size 100 and downstream window
5, a pass that obtains exactly max_to_read = min(5, 100) = 5 bytes, exits
the loop normally and has shutdown not in progress nevertheless schedules
no follow-up read task — refuting the claimed iff exactly in the case the
claim calls out, a downstream window smaller than max_chunk_size. -/
theorem claim2_cex :
    (s_do_read
        { maxRwSize := 100, shutdownErrCode := 0, shutdownInProgress := false, writeQueue := [] }
        5 [{ sock := SockRead.ready 5, sendOk := true }]).totalRead = min 5 100 ∧
    (s_do_read
        { maxRwSize := 100, shutdownErrCode := 0, shutdownInProgress := false, writeQueue := [] }
        5 [{ sock := SockRead.ready 5, sendOk := true }]).exitKind = DrainExit.normal ∧
    (s_do_read
        { maxRwSize := 100, shutdownErrCode := 0, shutdownInProgress := false, writeQueue := [] }
        5 [{ sock := SockRead.ready 5, sendOk := true }]).scheduledReadTask = false := by
  decide

/-- Claim C2 (amended): after a drain pass, a follow-up deferred read task
is scheduled iff the loop exited normally, shutdown is not in progress, and
the total bytes obtained equal max_rw_size (the per-handler chunk cap) —
not max_to_read; consuming a downstream window smaller than max_chunk_size
schedules nothing. -/
theorem claim2_schedule_iff_chunk_cap (h : SocketHandler) (w : Nat)
    (env : List ReadIterEnv) :
    (s_do_read h w env).scheduledReadTask = true ↔
      ((s_do_read h w env).exitKind = DrainExit.normal ∧
        h.shutdownInProgress = false ∧
        (s_do_read h w env).totalRead = h.maxRwSize) := by
  by_cases h0 : max_to_read h w = 0
  · simp [s_do_read, h0]
  · rcases s_do_read_loop_exit (max_to_read h w) env 0 with ⟨hn, hle⟩ | ⟨⟨e, he⟩, hlt⟩ | hsf
    · simp [s_do_read, h0, hn, Nat.not_lt.mpr hle, Bool.and_eq_true, Bool.not_eq_true',
        beq_iff_eq, and_comm]
    · have hnsf : (s_do_read_loop (max_to_read h w) env 0).exit ≠ DrainExit.sendFail := by
        simp [he]
      by_cases hc : (e ≠ AWS_IO_READ_WOULD_BLOCK ∧ h.shutdownInProgress = false)
      · simp [s_do_read, h0, he, hlt, hnsf, hc]
      · simp [s_do_read, h0, he, hlt, hnsf, hc]
    · simp [s_do_read, h0, hsf]

/-- Claim C2 witness: with max_rw_size 5 and window 10, reading exactly 5
bytes schedules the follow-up task. -/
theorem claim2_witness :
    (s_do_read { maxRwSize := 5, shutdownErrCode := 0, shutdownInProgress := false, writeQueue := [] }
        10 [{ sock := SockRead.ready 5, sendOk := true }]).scheduledReadTask = true :=
  (claim2_schedule_iff_chunk_cap
      { maxRwSize := 5, shutdownErrCode := 0, shutdownInProgress := false, writeQueue := [] }
      10 [{ sock := SockRead.ready 5, sendOk := true }]).mpr (by decide)

/-- Claim C3 counterexample: a write completion with a non-zero error code
delivered while shutdown_in_progress is already set still initiates a
channel shutdown — the C callback never consults the flag, so the claimed
idempotence guard does not exist on this path. -/
theorem claim3_cex :
    ¬ ((s_on_socket_write_complete true (some { msgId := 1, hasOnCompletion := true })
        5).channelShutdown = none) := by decide

/-- Claim C3 (amended): for every write completion with a message attached,
the completion callback (when present) is invoked with the resulting error
code, the message is returned to its pool, and a non-zero error code
initiates a full pipeline shutdown carrying that code unconditionally —
there is no shutdown_in_progress guard on the write-completion path (the
result never depends on the flag). -/
theorem claim3_write_complete_effects (sip : Bool) (m : IoMessage) (errorCode : Nat) :
    (m.hasOnCompletion = true →
      (s_on_socket_write_complete sip (some m) errorCode).completionInvoked = some errorCode) ∧
    (m.hasOnCompletion = false →
      (s_on_socket_write_complete sip (some m) errorCode).completionInvoked = none) ∧
    (s_on_socket_write_complete sip (some m) errorCode).releasedToPool = true ∧
    (errorCode ≠ 0 →
      (s_on_socket_write_complete sip (some m) errorCode).channelShutdown = some errorCode) ∧
    (errorCode = 0 →
      (s_on_socket_write_complete sip (some m) errorCode).channelShutdown = none) ∧
    s_on_socket_write_complete sip (some m) errorCode =
      s_on_socket_write_complete false (some m) errorCode := by
  refine ⟨fun hc => by simp [s_on_socket_write_complete, hc],
    fun hc => by simp [s_on_socket_write_complete, hc],
    by simp [s_on_socket_write_complete],
    fun hne => by simp [s_on_socket_write_complete, hne],
    fun h0 => by simp [s_on_socket_write_complete, h0],
    rfl⟩

/-- Claim C3 witness: a successful completion of a message without a
callback releases it without shutting the channel down. -/
theorem claim3_witness :
    (s_on_socket_write_complete false (some { msgId := 2, hasOnCompletion := false })
      0).channelShutdown = none :=
  (claim3_write_complete_effects false { msgId := 2, hasOnCompletion := false } 0).2.2.2.2.1 rfl

/-- Claim C4: every write-direction shutdown call sets shutdown_in_progress,
drains the pending write queue in FIFO order — each message failed with
AWS_IO_SOCKET_CLOSED when it has a callback and released to its pool —
closes the socket exactly when it is still open, reports nothing inline,
and schedules the deferred shutdown task, which will notify the write
direction with the recorded error code and abort flag false. -/
theorem claim4_write_shutdown_drains_fifo (h : SocketHandler) (env : ShutdownEnv)
    (errorCode : Nat) (ab : Bool) :
    (s_socket_shutdown h env ChannelDir.write errorCode ab).handler.shutdownInProgress = true ∧
    (s_socket_shutdown h env ChannelDir.write errorCode ab).drained =
      h.writeQueue.map (fun m =>
        { evtMsgId := m.msgId,
          completionErr := if m.hasOnCompletion then some AWS_IO_SOCKET_CLOSED else none }) ∧
    (s_socket_shutdown h env ChannelDir.write errorCode ab).handler.writeQueue = [] ∧
    (s_socket_shutdown h env ChannelDir.write errorCode ab).socketShutdownCalled = env.socketOpen ∧
    (s_socket_shutdown h env ChannelDir.write errorCode ab).inlineNotify = none ∧
    (s_socket_shutdown h env ChannelDir.write errorCode ab).deferredNotifyScheduled = true ∧
    (∀ st, s_shutdown_task st (s_socket_shutdown h env ChannelDir.write errorCode ab).handler =
      some { dir := ChannelDir.write, errCode := errorCode, abortFlag := false }) := by
  refine ⟨rfl, ?_, rfl, rfl, rfl, rfl, fun st => rfl⟩
  simpa [s_socket_shutdown] using s_socket_shutdown_drain_eq_map h.writeQueue

/-- Claim C5: after a drain pass whose loop broke on a read error (fewer
bytes than max_to_read were read), nothing is scheduled; a would-block
terminating error causes no shutdown; any other terminating error triggers
a channel shutdown carrying that code unless shutdown is already in
progress. -/
theorem claim5_read_error_handling (h : SocketHandler) (w : Nat)
    (env : List ReadIterEnv) (e : Nat)
    (hx : (s_do_read h w env).exitKind = DrainExit.readErr e) :
    (s_do_read h w env).scheduledReadTask = false ∧
    (e = AWS_IO_READ_WOULD_BLOCK → (s_do_read h w env).channelShutdown = none) ∧
    (e ≠ AWS_IO_READ_WOULD_BLOCK →
      (s_do_read h w env).channelShutdown =
        if h.shutdownInProgress then none else some e) := by
  by_cases h0 : max_to_read h w = 0
  · exact absurd hx (by simp [s_do_read, h0])
  · rcases s_do_read_loop_exit (max_to_read h w) env 0 with ⟨hn, hle⟩ | ⟨⟨e0, he⟩, hlt⟩ | hsf
    · exact absurd hx (by simp [s_do_read, h0, hn, Nat.not_lt.mpr hle])
    · have hnsf : (s_do_read_loop (max_to_read h w) env 0).exit ≠ DrainExit.sendFail := by
        simp [he]
      by_cases hc : (e0 ≠ AWS_IO_READ_WOULD_BLOCK ∧ h.shutdownInProgress = false)
      · have he0 : e0 = e := by
          simpa [s_do_read, h0, he, hlt, hnsf, hc] using hx
        subst he0
        refine ⟨by simp [s_do_read, h0, he, hlt, hnsf, hc], ?_, ?_⟩
        · intro hwb
          exact absurd hwb hc.1
        · intro hne
          simp [s_do_read, h0, he, hlt, hnsf, hc, hc.2]
      · have he0 : e0 = e := by
          simpa [s_do_read, h0, he, hlt, hnsf, hc] using hx
        subst he0
        refine ⟨by simp [s_do_read, h0, he, hlt, hnsf, hc], ?_, ?_⟩
        · intro hwb
          simp [s_do_read, h0, he, hlt, hnsf, hc]
        · intro hne
          have hsip : h.shutdownInProgress = true := by
            rcases not_and_or.mp hc with hd | hd
            · exact absurd hne (by simpa using hd)
            · simpa [Bool.not_eq_false] using hd
          simp [s_do_read, h0, he, hlt, hnsf, hc, hsip]
    · exact absurd hx (by simp [s_do_read, h0, hsf])

/-- Claim C5 witness: a pass whose single read fails with code 5 (not
would-block) on a handler not shutting down requests a channel shutdown
with code 5. -/
theorem claim5_witness :
    (s_do_read { maxRwSize := 8, shutdownErrCode := 0, shutdownInProgress := false, writeQueue := [] }
        4 [{ sock := SockRead.fail 5, sendOk := true }]).channelShutdown = some 5 :=
  ((claim5_read_error_handling
      { maxRwSize := 8, shutdownErrCode := 0, shutdownInProgress := false, writeQueue := [] }
      4 [{ sock := SockRead.fail 5, sendOk := true }] 5 (by decide)).2.2 (by decide))

/-- Claim C6: once shutdown_in_progress is set, a drain pass schedules no
follow-up read task and requests no channel shutdown,
socket_increment_read_window schedules no read task, and a readable
notification — with or without an error code — triggers no channel
shutdown, directly or through the drain pass it runs. -/
theorem claim6_shutdown_suppresses (h : SocketHandler)
    (hs : h.shutdownInProgress = true) (w : Nat) (env : List ReadIterEnv)
    (errCode : Nat) :
    (s_do_read h w env).scheduledReadTask = false ∧
    (s_do_read h w env).channelShutdown = none ∧
    (socket_increment_read_window h).taskScheduled = false ∧
    (s_on_readable_notification h errCode w env).channelShutdown = none ∧
    (∀ r, (s_on_readable_notification h errCode w env).didRead = some r →
      r.channelShutdown = none ∧ r.scheduledReadTask = false) := by
  refine ⟨(s_do_read_sip h hs w env).1, (s_do_read_sip h hs w env).2,
    by simp [socket_increment_read_window, hs], ?_, ?_⟩
  · by_cases h0 : errCode = 0
    · simp [s_on_readable_notification, h0]
    · simp [s_on_readable_notification, h0, hs]
  · intro r hr
    by_cases h0 : errCode = 0
    · simp only [s_on_readable_notification, h0, if_pos] at hr
      have : r = s_do_read h w env := by
        have hr2 : s_do_read h w env = r := by simpa using hr
        exact hr2.symm
      rw [this]
      exact ⟨(s_do_read_sip h hs w env).2, (s_do_read_sip h hs w env).1⟩
    · simp [s_on_readable_notification, h0, hs] at hr

/-- Claim C6 witness: with shutdown in progress, a failing read in the
drain pass requests no channel shutdown. -/
theorem claim6_witness :
    (s_do_read { maxRwSize := 8, shutdownErrCode := 0, shutdownInProgress := true, writeQueue := [] }
        4 [{ sock := SockRead.fail 5, sendOk := true }]).channelShutdown = none :=
  (claim6_shutdown_suppresses
      { maxRwSize := 8, shutdownErrCode := 0, shutdownInProgress := true, writeQueue := [] }
      rfl 4 [{ sock := SockRead.fail 5, sendOk := true }] 3).2.1

/-- Claim C7: every read-direction shutdown call sets shutdown_in_progress,
closes the socket exactly when the shutdown is an abort and the socket is
still open (provided the socket shutdown primitive succeeds), drains
nothing, and reports shutdown-complete for the read direction inline,
scheduling no deferred task. -/
theorem claim7_read_shutdown_inline (h : SocketHandler) (env : ShutdownEnv)
    (errorCode : Nat) (ab : Bool) (hok : env.socketShutdownOk = true) :
    (s_socket_shutdown h env ChannelDir.read errorCode ab).handler.shutdownInProgress = true ∧
    (s_socket_shutdown h env ChannelDir.read errorCode ab).socketShutdownCalled =
      (ab && env.socketOpen) ∧
    (s_socket_shutdown h env ChannelDir.read errorCode ab).inlineNotify =
      some { dir := ChannelDir.read, errCode := errorCode, abortFlag := ab } ∧
    (s_socket_shutdown h env ChannelDir.read errorCode ab).deferredNotifyScheduled = false ∧
    (s_socket_shutdown h env ChannelDir.read errorCode ab).drained = [] := by
  cases hab : (ab && env.socketOpen) <;>
    simp [s_socket_shutdown, hab, hok]

/-- Claim C7 witness: an abort read-direction shutdown on an open socket
closes the socket and notifies inline. -/
theorem claim7_witness :
    (s_socket_shutdown
        { maxRwSize := 4, shutdownErrCode := 0, shutdownInProgress := false, writeQueue := [] }
        { socketOpen := true, socketShutdownOk := true }
        ChannelDir.read 9 true).inlineNotify =
      some { dir := ChannelDir.read, errCode := 9, abortFlag := true } :=
  (claim7_read_shutdown_inline
      { maxRwSize := 4, shutdownErrCode := 0, shutdownInProgress := false, writeQueue := [] }
      { socketOpen := true, socketShutdownOk := true } 9 true rfl).2.2.1

/-- Claim C8 counterexample: the deferred shutdown-notification task
delivered as cancelled is not a no-op — it still reports
shutdown-complete, because the C task ignores its status argument. -/
theorem claim8_cex :
    s_shutdown_task TaskStatus.canceled
      { maxRwSize := 4, shutdownErrCode := 7, shutdownInProgress := true, writeQueue := [] } ≠
      none := by decide

/-- Claim C8 (amended): the deferred follow-up read task performs its drain
only when delivered as run-ready and is a no-op when cancelled; the
deferred shutdown-notification task, by contrast, reports
shutdown-complete for the write direction regardless of its delivery
status. -/
theorem claim8_task_status (st : TaskStatus) (h : SocketHandler) (w : Nat)
    (env : List ReadIterEnv) :
    s_read_task TaskStatus.canceled h w env = none ∧
    s_read_task TaskStatus.runReady h w env = some (s_do_read h w env) ∧
    s_shutdown_task st h =
      some { dir := ChannelDir.write, errCode := h.shutdownErrCode, abortFlag := false } :=
  ⟨rfl, rfl, rfl⟩

/-- Claim C9: process_read_message on the socket handler always fails,
raising AWS_IO_CHANNEL_ERROR_ERROR_CANT_ACCEPT_INPUT and leaving the
handler state unchanged. -/
theorem claim9_process_read_rejects (h : SocketHandler) (msg : IoMessage) :
    s_socket_process_read_message h msg =
      (some AWS_IO_CHANNEL_ERROR_ERROR_CANT_ACCEPT_INPUT, h) := rfl

/-- When s_init_from_uri_str reports failure, it has zeroed the whole
struct (releasing the internal string copy). -/
theorem s_init_from_uri_str_err (u : AwsUri)
    (hf : (s_init_from_uri_str u).1 = false) :
    (s_init_from_uri_str u).2 = AwsUri.zeroed := by
  by_cases hc : (runStates 8
      { uri := u, state := ParserState.onScheme, str := uri_str_cursor u }).state =
      ParserState.finished
  · exact absurd hf (by simp [s_init_from_uri_str, hc])
  · simp [s_init_from_uri_str, hc]

/-- Claim C10: whenever aws_uri_init_parse returns an error, the aws_uri
structure is left entirely zeroed — every cursor field is the zero cursor,
the port is 0, and the internal copy of the uri string has been released —
so no partially parsed field remains observable. -/
theorem claim10_parse_error_zeroed (input : List Char)
    (hf : (aws_uri_init_parse input).1 = false) :
    (aws_uri_init_parse input).2 = AwsUri.zeroed := by
  unfold aws_uri_init_parse at hf ⊢
  exact s_init_from_uri_str_err _ hf

/-- Claim C10 witness: the malformed input a:/b fails to parse and leaves
the structure zeroed. -/
theorem claim10_witness :
    (aws_uri_init_parse ['a', ':', '/', 'b']).2 = AwsUri.zeroed :=
  claim10_parse_error_zeroed ['a', ':', '/', 'b'] (by decide)
